import Mathlib

/-!
# nits: binary-cache routes and the deployment handler

A shallow embedding of `pkg/cache/routes.go` (router table, `putNar`, `getNar`,
`getNarInfo`) and of `pkg/agent/deploy.go` (`Agent.onDeployment`).

Stores are explicit state, every call into a collaborator (NATS key-value and object
stores, the signing key, the narinfo library, the nix commands) is an explicit input,
and every store write is recorded in a trace next to the resulting state.
-/

namespace Nits

/-- Go `[]byte`. -/
abbrev Bytes := List UInt8

/-! ## `net/http` response writer -/

/-- What a handler has put on its `http.ResponseWriter`.  `status = none` means that
neither `WriteHeader` nor `Write` has been called yet. -/
structure ResponseWriter where
  status : Option Nat := none
  header : List (String × String) := []
  body : Bytes := []
deriving DecidableEq, Repr

/-- `Header.Set`: replace the value stored under `key`. -/
def HeaderSet (h : List (String × String)) (key value : String) : List (String × String) :=
  (h.filter (fun kv => kv.1 != key)) ++ [(key, value)]

/-- `Header.Get`: the value stored under `key`, `""` when there is none. -/
def HeaderGet (h : List (String × String)) (key : String) : String :=
  match h.find? (fun kv => kv.1 == key) with
  | some kv => kv.2
  | none => ""

namespace ResponseWriter

/-- `w.WriteHeader(code)`: the first call fixes the status, later calls are ignored. -/
def WriteHeader (w : ResponseWriter) (code : Nat) : ResponseWriter :=
  match w.status with
  | none => { w with status := some code }
  | some _ => w

/-- `w.Write(b)`: an implicit `WriteHeader(200)` when no status was sent, then the bytes. -/
def Write (w : ResponseWriter) (b : Bytes) : ResponseWriter :=
  { w with status := some (w.status.getD 200), body := w.body ++ b }

/-- `w.Header().Set(key, value)`. -/
def Set (w : ResponseWriter) (key value : String) : ResponseWriter :=
  { w with header := HeaderSet w.header key value }

/-- The status the client sees: 200 when the handler returned without sending one. -/
def statusCode (w : ResponseWriter) : Nat := w.status.getD 200

end ResponseWriter

/-! ## Route constants (`routes.go`, lines 19-29) -/

def ContentLength : String := "Content-Length"
def ContentType : String := "Content-Type"
def ContentTypeNar : String := "application/x-nix-nar"
def ContentTypeNarInfo : String := "text/x-nix-narinfo"

/-! ## Backing stores -/

/-- Result of `KeyValue.Get` / `ObjectStore.Get`: the value, `ErrKeyNotFound`
(`ErrObjectNotFound`), or any other error. -/
inductive GetResult (α : Type) where
  | value (v : α)
  | notFound
  | failure
deriving DecidableEq, Repr

/-- A blob in the object store with the metadata `obj.Info()` reports:
`info.Size = data.length` and `info.Opts.ChunkSize = chunkSize`. -/
structure NarObject where
  data : Bytes
  chunkSize : Nat
deriving DecidableEq, Repr

/-- Contents of the three stores a cache talks to. -/
structure Stores where
  narInfo : String → Option Bytes
  narInfoAccess : String → Option Bytes
  nar : String → Option NarObject

/-- Which backend calls fail (with an error other than not-found) while one request
is served. -/
structure Faults where
  narInfoGet : Bool := false
  narInfoPut : Bool := false
  narInfoAccessPut : Bool := false
  narGet : Bool := false
  narPut : Bool := false
  narObjInfo : Bool := false
  narReadAt : Option Nat := none
deriving DecidableEq, Repr

/-- No backend call fails. -/
def Faults.none : Faults := {}

/-- `kv.Get(key)` against contents `m`, failing when `fails`. -/
def storeGet {α : Type} (m : String → Option α) (fails : Bool) (key : String) : GetResult α :=
  if fails then .failure
  else match m key with
    | some v => .value v
    | none => .notFound

/-- `kv.Put(key, value)` against contents `m`: the new contents, `none` on error. -/
def storePut {α : Type} (m : String → Option α) (fails : Bool) (key : String) (v : α) :
    Option (String → Option α) :=
  if fails then Option.none
  else some (fun k => if k = key then some v else m k)

/-- A store write a handler issued (recorded whether or not the backend accepted it). -/
inductive StoreWrite where
  | narInfoPut (key : String) (value : Bytes)
  | narInfoAccessPut (key : String)
  | narPut (name : String) (data : Bytes)
deriving DecidableEq, Repr

/-! ## narinfo records and the signing key (go-nix) -/

/-- `signature.Signature`. -/
structure Signature where
  Name : String
  Data : Bytes
deriving DecidableEq, Repr

/-- `narinfo.NarInfo`. -/
structure NarInfo where
  StorePath : String
  URL : String
  Compression : String
  NarHash : String
  NarSize : Nat
  References : List String
  Signatures : List Signature
deriving DecidableEq, Repr

/-- The go-nix narinfo functions the handler calls.  `Parse` answers `none` for go-nix's
`(nil, err)`; `String` is `(*NarInfo).String`, `Fingerprint` is `(*NarInfo).Fingerprint`. -/
structure NarInfoLib where
  Parse : Bytes → Option NarInfo
  String : NarInfo → Bytes
  Fingerprint : NarInfo → Bytes

/-- `signature.SecretKey`: its name and the raw signing function (`none` = error). -/
structure SecretKey where
  name : String
  signData : Bytes → Option Bytes

/-- `SecretKey.Sign(nil, fingerprint)`: the signature carries the key's name. -/
def SecretKey.Sign (sk : SecretKey) (fingerprint : Bytes) : Option Signature :=
  (sk.signData fingerprint).map (fun d => { Name := sk.name, Data := d })

/-- The fields of `cache.Options` that `routes.go` reads. -/
structure Options where
  Name : String
  SecretKey : SecretKey

/-- The parts of `Cache` the handlers use. -/
structure Cache where
  Options : Options
  lib : NarInfoLib

/-! ## Handlers -/

/-- How a handler invocation ended. -/
inductive Exit where
  | returned
  | panicked
deriving DecidableEq, Repr

/-- State after a handler ran: stores, the store writes it issued, the response. -/
structure Result where
  stores : Stores
  writes : List StoreWrite
  resp : ResponseWriter
  exit : Exit

/-- `name := hash + "-" + compression` (`putNar` line 66, `getNar` line 82). -/
def narName (hash compression : String) : String := hash ++ "-" ++ compression

/-- `putNar` (lines 61-75). The store attaches its default chunk size to the object. -/
def putNar (defaultChunkSize : Nat) (f : Faults) (s : Stores) (hash compression : String)
    (reqBody : Bytes) : Result :=
  let name := narName hash compression
  let w : ResponseWriter := {}
  match storePut s.nar f.narPut name { data := reqBody, chunkSize := defaultChunkSize } with
  | some nar => ⟨{ s with nar := nar }, [.narPut name reqBody], w, .returned⟩
  | Option.none => ⟨s, [.narPut name reqBody], (w.WriteHeader 500).Write [], .returned⟩

/-- `io.CopyN(w, obj, n)`: copy up to `n` bytes from the reader; returns the writer,
the rest of the reader and the number of bytes written. -/
def CopyN (w : ResponseWriter) (src : Bytes) (n : Nat) : ResponseWriter × Bytes × Nat :=
  let chunk := src.take n
  (if chunk = [] then w else w.Write chunk, src.drop n, chunk.length)

/-- The loop of `getNar` (line 110) after its init statement ran:
`for ; written == chunkSize; { }`.  `true` when the loop is left within `fuel` tests of
the condition. -/
def copyLoop (written chunkSize : Nat) : Nat → Bool
  | 0 => false
  | fuel + 1 => if written = chunkSize then copyLoop written chunkSize fuel else true

/-- `getNar(body)` (lines 77-113); `none` when the loop has not ended within `fuel`. -/
def getNar (body : Bool) (fuel : Nat) (f : Faults) (s : Stores) (hash compression : String) :
    Option Result :=
  let name := narName hash compression
  let w : ResponseWriter := {}
  match storeGet s.nar f.narGet name with
  | .notFound => some ⟨s, [], w.WriteHeader 404, .returned⟩
  | .failure => some ⟨s, [], w.WriteHeader 500, .returned⟩
  | .value obj =>
    if f.narObjInfo then some ⟨s, [], w.WriteHeader 500, .returned⟩
    else
      let w := w.Set ContentType ContentTypeNar
      let w := w.Set ContentLength (toString obj.data.length)
      if !body then some ⟨s, [], w, .returned⟩
      else
        let readable := match f.narReadAt with
          | some k => obj.data.take k
          | Option.none => obj.data
        let chunkSize := obj.chunkSize
        let (w, _, written) := CopyN w readable chunkSize
        if copyLoop written chunkSize fuel then some ⟨s, [], w, .returned⟩ else Option.none

/-- `getNarInfo` (lines 139-202).  `narinfo.Parse`'s error is never inspected: on a parse
failure `info` is nil and `info.Signatures` (line 163) dereferences it. -/
def getNarInfo (c : Cache) (f : Faults) (s : Stores) (hash : String) : Result :=
  let w : ResponseWriter := {}
  match storeGet s.narInfo f.narInfoGet hash with
  | .notFound => ⟨s, [], w.WriteHeader 404, .returned⟩
  | .failure => ⟨s, [], w.WriteHeader 500, .returned⟩
  | .value obj =>
    -- record access
    match storePut s.narInfoAccess f.narInfoAccessPut hash [] with
    | Option.none => ⟨s, [.narInfoAccessPut hash], w.WriteHeader 500, .returned⟩
    | some access =>
      let s := { s with narInfoAccess := access }
      match c.lib.Parse obj with
      | Option.none => ⟨s, [.narInfoAccessPut hash], w, .panicked⟩
      | some info =>
        let sign := !(info.Signatures.any (fun sig => sig.Name == c.Options.Name))
        if sign then
          match c.Options.SecretKey.Sign (c.lib.Fingerprint info) with
          | Option.none => ⟨s, [.narInfoAccessPut hash], w.WriteHeader 500, .returned⟩
          | some sig =>
            let info := { info with Signatures := info.Signatures ++ [sig] }
            let res := c.lib.String info
            -- update store
            match storePut s.narInfo f.narInfoPut hash res with
            | Option.none =>
              ⟨s, [.narInfoAccessPut hash, .narInfoPut hash res], w.WriteHeader 500, .returned⟩
            | some narInfo =>
              let w := w.Set ContentType ContentTypeNarInfo
              let w := w.Set ContentLength (toString res.length)
              ⟨{ s with narInfo := narInfo }, [.narInfoAccessPut hash, .narInfoPut hash res],
                w.Write res, .returned⟩
        else
          let res := c.lib.String info
          let w := w.Set ContentType ContentTypeNarInfo
          let w := w.Set ContentLength (toString res.length)
          ⟨s, [.narInfoAccessPut hash], w.Write res, .returned⟩

/-- `middleware.Recoverer` (installed at line 36): a panic of the wrapped handler
becomes a 500 response. -/
def Recoverer (r : Result) : Result :=
  match r.exit with
  | .returned => r
  | .panicked => { r with resp := r.resp.WriteHeader 500, exit := .returned }

/-- A GET served through the router's middleware: the handler under `Recoverer`. -/
def serveGetNarInfo (c : Cache) (f : Faults) (s : Stores) (hash : String) : Result :=
  Recoverer (getNarInfo c f s hash)

/-- Successive GETs of the same narinfo, one `Faults` per request: the final stores and
every store write issued on the way. -/
def getNarInfoSeq (c : Cache) (hash : String) : List Faults → Stores → Stores × List StoreWrite
  | [], s => (s, [])
  | f :: fs, s =>
    let r := getNarInfo c f s hash
    let rest := getNarInfoSeq c hash fs r.stores
    (rest.1, r.writes ++ rest.2)

/-- Whether a store write goes to the narinfo store. -/
def StoreWrite.isNarInfoPut : StoreWrite → Bool
  | .narInfoPut _ _ => true
  | _ => false

/-- The signatures of a record made under signer name `name`. -/
def signaturesBy (name : String) (info : NarInfo) : List Signature :=
  info.Signatures.filter (fun sig => sig.Name == name)

/-- The record after `info.Signatures = append(info.Signatures, sig)` (line 178). -/
def appendSignature (info : NarInfo) (sig : Signature) : NarInfo :=
  { info with Signatures := info.Signatures ++ [sig] }

/-! ## Router (`createRouter`, lines 31-53) -/

inductive Method where
  | GET | HEAD | PUT | POST | DELETE
deriving DecidableEq, Repr

/-- The route patterns `RouteCacheInfo`, `RouteNarInfo`, `RouteNar`. -/
inductive Route where
  | CacheInfo
  | NarInfo
  | Nar
deriving DecidableEq, Repr

/-- The handlers `createRouter` installs. -/
inductive Handler where
  | getNixCacheInfo
  | getNarInfo
  | putNarInfo
  | getNar (body : Bool)
  | putNar
deriving DecidableEq, Repr

/-- The registrations of `createRouter` in source order (lines 43-50).  chi's `Get`,
`Put` and `Head` each register the handler for that one method only. -/
def createRouter : List (Method × Route × Handler) :=
  [ (.GET, .CacheInfo, .getNixCacheInfo),
    (.GET, .NarInfo, .getNarInfo),
    (.PUT, .NarInfo, .putNarInfo),
    (.HEAD, .Nar, .getNar false),
    (.GET, .Nar, .getNar true),
    (.PUT, .Nar, .putNar) ]

/-- The character class `[a-z0-9]` of the `hash` parameter. -/
def isHashChar (ch : Char) : Bool :=
  (97 ≤ ch.toNat && ch.toNat ≤ 122) || (48 ≤ ch.toNat && ch.toNat ≤ 57)

/-- A `hash` parameter the router accepts: it matches `[a-z0-9]+`. -/
def isHash (hash : String) : Bool :=
  !hash.toList.isEmpty && hash.toList.all isHashChar

/-- `p` stripped from the front of `l`, if `l` starts with `p`. -/
def stripFront (p : List Char) (l : List Char) : Option (List Char) :=
  if p.isPrefixOf l then some (l.drop p.length) else Option.none

/-- `RouteNarInfo = "/{hash:[a-z0-9]+}.narinfo"`: the `hash` parameter of a matching path. -/
def matchNarInfo (path : String) : Option String :=
  match stripFront "/".toList path.toList with
  | Option.none => Option.none
  | some rest =>
    let hash := rest.takeWhile isHashChar
    if hash ≠ [] ∧ rest.dropWhile isHashChar = ".narinfo".toList then some (String.mk hash)
    else Option.none

/-- `RouteNar = "/nar/{hash:[a-z0-9]+}.nar.{compression:*}"`: the `hash` and `compression`
parameters of a matching path (the last parameter takes the rest of the segment). -/
def matchNar (path : String) : Option (String × String) :=
  match stripFront "/nar/".toList path.toList with
  | Option.none => Option.none
  | some rest =>
    let hash := rest.takeWhile isHashChar
    match stripFront ".nar.".toList (rest.dropWhile isHashChar) with
    | Option.none => Option.none
    | some compression =>
      if hash ≠ [] ∧ ¬ compression.contains '/' then some (String.mk hash, String.mk compression)
      else Option.none

/-- The route pattern a request path matches. -/
def matchRoute (path : String) : Option Route :=
  if path = "/nix-cache-info" then some .CacheInfo
  else if (matchNarInfo path).isSome then some .NarInfo
  else if (matchNar path).isSome then some .Nar
  else Option.none

/-- Where the router sends a request. -/
inductive Dispatch where
  | handler (h : Handler)
  | methodNotAllowed
  | notFound
deriving DecidableEq, Repr

/-- chi's dispatch over `createRouter`: the handler registered for the matching pattern
and the request's method; 405 when the pattern matches under other methods only; 404
when no pattern matches. -/
def dispatch (method : Method) (path : String) : Dispatch :=
  match matchRoute path with
  | Option.none => .notFound
  | some route =>
    match createRouter.find? (fun e => e.1 = method ∧ e.2.1 = route) with
    | some e => .handler e.2.2
    | Option.none => .methodNotAllowed

/-- The status the router itself answers when a request reaches no handler: 405 when the
pattern matches under other methods only, 404 when no pattern matches. -/
def Dispatch.routerStatus : Dispatch → Option Nat
  | .handler _ => Option.none
  | .methodNotAllowed => some 405
  | .notFound => some 404

/-! ## Deployment handler (`pkg/agent/deploy.go`) -/

/-- Modelled from the spec: the `guvnor.Deployment` type is declared outside `src/`; the
deployment descriptor of the data model carries the target closure, the action and a
dry-run flag.  `onDeployment` reads `Closure` only. -/
structure Deployment where
  Action : String
  Closure : String
  DryRun : Bool
deriving DecidableEq, Repr

/-- `guvnor.DeploymentResult` as built at lines 117-121. -/
structure DeploymentResult where
  Deployment : Deployment
  Success : Bool
  Output : Bytes
deriving DecidableEq, Repr

/-- What a nix command hands back: `(stdOut, stdErr, err)`, `err = true` for `err != nil`. -/
structure CmdResult where
  stdOut : Bytes
  stdErr : Bytes
  err : Bool
deriving DecidableEq, Repr

/-- The fields of `Agent` that `onDeployment` reads. -/
structure Agent where
  nkey : String
  DryRun : Bool

/-- The answers of the collaborators during one `onDeployment`. -/
structure Host where
  currentSystemClosure : String × Bool
  newCacheErr : Bool
  initErr : Bool
  listenAddr : String
  copyFromBinaryCache : String → String → CmdResult
  switchToConfiguration : Deployment → Bool → CmdResult
  resultPutErr : Bool

/-- The calls `onDeployment` makes, in program order (`cacheRun` is the launch of the
goroutine serving the proxy). -/
inductive Event where
  | newCache
  | cacheInit
  | cacheRun
  | copyFromBinaryCache (addr closure : String)
  | switchToConfiguration (config : Deployment) (dryRun : Bool)
  | resultPut (key : String) (value : DeploymentResult)
deriving DecidableEq, Repr

/-- The body of the second goroutine (lines 135-156): the calls made, the captured
`output`, and whether the returned `err` is non-nil. -/
def copyThenSwitch (a : Agent) (h : Host) (config : Deployment) : List Event × Bytes × Bool :=
  let fetch := h.copyFromBinaryCache h.listenAddr config.Closure
  let output : Bytes := [] ++ fetch.stdOut
  if fetch.err then
    ([.copyFromBinaryCache h.listenAddr config.Closure], output ++ fetch.stdErr, true)
  else
    let apply := h.switchToConfiguration config a.DryRun
    let output := output ++ apply.stdOut
    if apply.err then
      ([.copyFromBinaryCache h.listenAddr config.Closure, .switchToConfiguration config a.DryRun],
        output ++ apply.stdErr, true)
    else
      ([.copyFromBinaryCache h.listenAddr config.Closure, .switchToConfiguration config a.DryRun],
        output, false)

/-- `Agent.onDeployment` (lines 61-169): the calls made and the result store afterwards.
The stored value is the `DeploymentResult` that line 123 marshals. -/
def onDeployment (a : Agent) (h : Host) (config : Deployment)
    (deploymentResult : String → Option DeploymentResult) :
    List Event × (String → Option DeploymentResult) :=
  let currentSystem := h.currentSystemClosure.1
  if currentSystem = config.Closure then ([], deploymentResult)
  else if h.newCacheErr then ([.newCache], deploymentResult)
  else if h.initErr then ([.newCache, .cacheInit], deploymentResult)
  else
    let (calls, output, err) := copyThenSwitch a h config
    let result : DeploymentResult := { Deployment := config, Success := !err, Output := output }
    let events := [.newCache, .cacheInit, .cacheRun] ++ calls ++ [.resultPut a.nkey result]
    match storePut deploymentResult h.resultPutErr a.nkey result with
    | some kv => (events, kv)
    | Option.none => (events, deploymentResult)

/-- The outcomes written to the result store, as `(key, value)`. -/
def outcomes (events : List Event) : List (String × DeploymentResult) :=
  events.filterMap (fun e => match e with
    | .resultPut k v => some (k, v)
    | _ => Option.none)

/-- Whether an event is a call into the cache proxy, the fetch or the apply collaborator. -/
def Event.isCollaboratorCall : Event → Bool
  | .resultPut _ _ => false
  | _ => true

/-! ## Sample collaborators

Concrete stand-ins for the external collaborators, used to instantiate the theorems. -/

/-- Signer-name codes of the sample codec. -/
def sampleNameOf (code : UInt8) : String :=
  if code = 1 then "cache-1" else "upstream-1"

/-- Inverse of `sampleNameOf` on the two sample names. -/
def sampleCodeOf (name : String) : UInt8 :=
  if name = "cache-1" then 1 else 2

/-- Signature section of the sample codec: two bytes per signature. -/
def sampleDecodeSigs : Bytes → Option (List Signature)
  | [] => some []
  | [_] => Option.none
  | n :: d :: rest => (sampleDecodeSigs rest).map (fun sigs => ⟨sampleNameOf n, [d]⟩ :: sigs)

/-- The record fields the sample codec does not put on the wire. -/
def sampleRecord : NarInfo :=
  { StorePath := "/nix/store/deadbeef-hello", URL := "nar/deadbeef.nar.xz", Compression := "xz",
    NarHash := "sha256:0", NarSize := 3, References := [], Signatures := [] }

/-- A small narinfo codec: a record is the byte `78` followed by its signatures. -/
def sampleLib : NarInfoLib where
  Parse := fun b => match b with
    | 78 :: rest => (sampleDecodeSigs rest).map (fun sigs => { sampleRecord with Signatures := sigs })
    | _ => Option.none
  String := fun info => 78 :: info.Signatures.flatMap (fun sig => [sampleCodeOf sig.Name, sig.Data.headD 0])
  Fingerprint := fun info => info.StorePath.toList.map (fun ch => ch.toNat.toUInt8)

/-- A cache named `cache-1` whose key signs every fingerprint with the byte `7`. -/
def sampleCache : Cache :=
  { Options := { Name := "cache-1", SecretKey := { name := "cache-1", signData := fun _ => some [7] } },
    lib := sampleLib }

/-- Stores holding one unsigned narinfo (under `deadbeef`) and nothing else. -/
def sampleStores : Stores :=
  { narInfo := fun k => if k = "deadbeef" then some [78, 2, 5] else Option.none,
    narInfoAccess := fun _ => Option.none,
    nar := fun _ => Option.none }

/-- Stores whose narinfo under `deadbeef` is the two bytes `B1`, which is no narinfo. -/
def malformedStores : Stores :=
  { narInfo := fun k => if k = "deadbeef" then some [66, 49] else Option.none,
    narInfoAccess := fun _ => Option.none,
    nar := fun _ => Option.none }

/-- The object store's default chunk size (128 KiB). -/
def objDefaultChunkSize : Nat := 131072

/-- Stores holding one blob of exactly one chunk under `deadbeef-xz`. -/
def fullChunkStores : Stores :=
  { narInfo := fun _ => Option.none,
    narInfoAccess := fun _ => Option.none,
    nar := fun k => if k = "deadbeef-xz"
      then some { data := List.replicate objDefaultChunkSize 0, chunkSize := objDefaultChunkSize }
      else Option.none }

/-- An agent with identity `N`. -/
def sampleAgent : Agent := { nkey := "N", DryRun := false }

/-- The descriptor `{closure: "xyz", action: "switch"}`. -/
def sampleDeployment : Deployment := { Action := "switch", Closure := "xyz", DryRun := false }

/-- A node at closure `abc` on which fetch and apply both succeed, each printing one byte
on standard output and one on standard error. -/
def sampleHost : Host :=
  { currentSystemClosure := ("abc", false), newCacheErr := false, initErr := false,
    listenAddr := "localhost:0",
    copyFromBinaryCache := fun _ _ => { stdOut := [1], stdErr := [2], err := false },
    switchToConfiguration := fun _ _ => { stdOut := [3], stdErr := [4], err := false },
    resultPutErr := false }

/-- The sample node with a failing fetch. -/
def fetchFailingHost : Host :=
  { sampleHost with copyFromBinaryCache := fun _ _ => { stdOut := [1], stdErr := [2], err := true } }

/-- The sample node on which the cache proxy cannot be created. -/
def proxyFailingHost : Host := { sampleHost with newCacheErr := true }

/-- The sample node already at closure `xyz`. -/
def currentHost : Host := { sampleHost with currentSystemClosure := ("xyz", false) }

/-- An empty result store. -/
def emptyResults : String → Option DeploymentResult := fun _ => Option.none

/-- The output claimed for an attempt in which both steps ran: standard output and
standard error of the fetch, then standard output and standard error of the apply. -/
def fullOutput (fetch apply : CmdResult) : Bytes :=
  fetch.stdOut ++ fetch.stdErr ++ (apply.stdOut ++ apply.stdErr)

/-- The output `copyThenSwitch` accumulates: each step's standard output, and a step's
standard error only when that step returned an error. -/
def capturedOutput (fetch apply : CmdResult) : Bytes :=
  if fetch.err then fetch.stdOut ++ fetch.stdErr
  else if apply.err then fetch.stdOut ++ apply.stdOut ++ apply.stdErr
  else fetch.stdOut ++ apply.stdOut

/-! ## Theorems -/

/-- Handler level: a hash without an entry in the narinfo store makes `getNarInfo` answer
404 with an empty body, and a `hash-compression` name without an entry in the blob store
makes `getNar` (GET or HEAD, whatever the fuel) answer 404 with an empty body; neither
handler issues a store write and the stores are left as they were.  The lookup itself
is assumed to be answered, not to fail with a transport error. -/
theorem missing_hash_reads_not_found (c : Cache) (f : Faults) (s : Stores)
    (hash compression : String) (body : Bool) (fuel : Nat) :
    (s.narInfo hash = Option.none → f.narInfoGet = false →
      (getNarInfo c f s hash).resp.statusCode = 404 ∧
      (getNarInfo c f s hash).resp.body = [] ∧
      (getNarInfo c f s hash).writes = [] ∧
      (getNarInfo c f s hash).stores = s ∧
      (getNarInfo c f s hash).exit = .returned) ∧
    (s.nar (narName hash compression) = Option.none → f.narGet = false →
      getNar body fuel f s hash compression
        = some ⟨s, [], { status := some 404, header := [], body := [] }, .returned⟩) := by
  constructor
  · intro hs hf
    simp [getNarInfo, storeGet, hs, hf, ResponseWriter.WriteHeader, ResponseWriter.statusCode]
  · intro hs hf
    simp [getNar, storeGet, hs, hf, ResponseWriter.WriteHeader]

/-- The handlers on the sample stores, which hold no entry under `cafe`. -/
theorem missing_hash_reads_not_found_witness :
    ((getNarInfo sampleCache Faults.none sampleStores "cafe").resp.statusCode = 404 ∧
      (getNarInfo sampleCache Faults.none sampleStores "cafe").resp.body = [] ∧
      (getNarInfo sampleCache Faults.none sampleStores "cafe").writes = [] ∧
      (getNarInfo sampleCache Faults.none sampleStores "cafe").stores = sampleStores ∧
      (getNarInfo sampleCache Faults.none sampleStores "cafe").exit = .returned) ∧
    getNar true 0 Faults.none sampleStores "cafe" "xz"
      = some ⟨sampleStores, [], { status := some 404, header := [], body := [] }, .returned⟩ :=
  ⟨(missing_hash_reads_not_found sampleCache Faults.none sampleStores "cafe" "xz" true 0).1
      (by decide) rfl,
   (missing_hash_reads_not_found sampleCache Faults.none sampleStores "cafe" "xz" true 0).2
      (by decide) rfl⟩

/-! ### Deployment handler -/

/-- What `onDeployment` does once the closures differ and the proxy was created and
initialised: proxy start, the fetch-then-apply calls, one report under the node's key. -/
theorem onDeployment_attempt (a : Agent) (h : Host) (config : Deployment)
    (results : String → Option DeploymentResult)
    (hdiff : h.currentSystemClosure.1 ≠ config.Closure)
    (hnew : h.newCacheErr = false) (hinit : h.initErr = false) :
    (onDeployment a h config results).1
      = [.newCache, .cacheInit, .cacheRun] ++ (copyThenSwitch a h config).1 ++
        [.resultPut a.nkey
          ⟨config, !(copyThenSwitch a h config).2.2, (copyThenSwitch a h config).2.1⟩] := by
  unfold onDeployment
  simp only [hdiff, hnew, hinit, if_false, Bool.false_eq_true]
  cases storePut results h.resultPutErr a.nkey
      (⟨config, !(copyThenSwitch a h config).2.2, (copyThenSwitch a h config).2.1⟩ :
        DeploymentResult) <;> rfl

/-- The fetch-then-apply sequence by cases on the two command results. -/
theorem copyThenSwitch_eq (a : Agent) (h : Host) (config : Deployment) :
    copyThenSwitch a h config
      = (if (h.copyFromBinaryCache h.listenAddr config.Closure).err
          then [.copyFromBinaryCache h.listenAddr config.Closure]
          else [.copyFromBinaryCache h.listenAddr config.Closure,
                .switchToConfiguration config a.DryRun],
         capturedOutput (h.copyFromBinaryCache h.listenAddr config.Closure)
           (h.switchToConfiguration config a.DryRun),
         (h.copyFromBinaryCache h.listenAddr config.Closure).err ||
           (h.switchToConfiguration config a.DryRun).err) := by
  unfold copyThenSwitch capturedOutput
  cases hf : (h.copyFromBinaryCache h.listenAddr config.Closure).err <;>
    cases ha : (h.switchToConfiguration config a.DryRun).err <;> simp [hf, ha]

/-- No outcome is among events that are all collaborator calls. -/
theorem outcomes_append_single (pre : List Event) (k : String) (v : DeploymentResult)
    (hpre : ∀ e ∈ pre, e.isCollaboratorCall = true) :
    outcomes (pre ++ [.resultPut k v]) = [(k, v)] := by
  unfold outcomes
  rw [List.filterMap_append]
  have : pre.filterMap (fun e => match e with
      | .resultPut k v => some (k, v)
      | _ => Option.none) = [] := by
    rw [List.filterMap_eq_nil_iff]
    intro e he
    have := hpre e he
    cases e <;> simp_all [Event.isCollaboratorCall]
  rw [this]
  rfl

/-- The outcomes of an attempt: exactly one, under the node's key. -/
theorem outcomes_of_attempt (a : Agent) (h : Host) (config : Deployment)
    (results : String → Option DeploymentResult)
    (hdiff : h.currentSystemClosure.1 ≠ config.Closure)
    (hnew : h.newCacheErr = false) (hinit : h.initErr = false) :
    outcomes (onDeployment a h config results).1
      = [(a.nkey, { Deployment := config,
                    Success := (!((h.copyFromBinaryCache h.listenAddr config.Closure).err ||
                                  (h.switchToConfiguration config a.DryRun).err)),
                    Output := capturedOutput (h.copyFromBinaryCache h.listenAddr config.Closure)
                                (h.switchToConfiguration config a.DryRun) })] := by
  rw [onDeployment_attempt a h config results hdiff hnew hinit, copyThenSwitch_eq]
  apply outcomes_append_single
  intro e he
  simp only [List.mem_append, List.mem_cons, List.mem_singleton, List.not_mem_nil, or_false] at he
  rcases he with (he | he | he) | he
  · subst he; rfl
  · subst he; rfl
  · subst he; rfl
  · split at he
    · simp only [List.mem_singleton] at he; subst he; rfl
    · simp only [List.mem_cons, List.mem_singleton, List.not_mem_nil, or_false] at he
      rcases he with he | he <;> subst he <;> rfl

/-- C5: when the descriptor's closure equals the node's current closure, `onDeployment`
makes no call at all — no cache proxy is created or run, neither the fetch nor the
apply collaborator is invoked, nothing is put to the result store — and the result
store is left as it was. -/
theorem onDeployment_noop (a : Agent) (h : Host) (config : Deployment)
    (results : String → Option DeploymentResult)
    (hsame : h.currentSystemClosure.1 = config.Closure) :
    onDeployment a h config results = ([], results) := by
  simp [onDeployment, hsame]

/-- Witness for C5: the sample node already at closure `xyz` receives the descriptor for
`xyz`. -/
theorem onDeployment_noop_witness :
    onDeployment sampleAgent currentHost sampleDeployment emptyResults = ([], emptyResults) :=
  onDeployment_noop sampleAgent currentHost sampleDeployment emptyResults rfl

/-- C2 (failing input): the closures differ (`abc` against `xyz`) but the cache proxy
cannot be created; `onDeployment` returns at line 95 after the one call to `NewCache`,
no outcome is written and the result store is left as it was. -/
theorem onDeployment_proxy_failure_unreported :
    proxyFailingHost.currentSystemClosure.1 ≠ sampleDeployment.Closure ∧
    onDeployment sampleAgent proxyFailingHost sampleDeployment emptyResults
      = ([.newCache], emptyResults) ∧
    outcomes (onDeployment sampleAgent proxyFailingHost sampleDeployment emptyResults).1 = [] := by
  refine ⟨by decide, rfl, rfl⟩

/-- C7 (counterexample): on the sample node the closures differ, the proxy starts, and
fetch and apply both succeed, printing `[1]` and `[3]` on standard output and `[2]` and
`[4]` on standard error.  The one outcome written carries the output `[1, 3]`, which is
not the concatenation `[1, 2, 3, 4]` of the four streams. -/
theorem output_omits_stderr_of_successful_step :
    (outcomes (onDeployment sampleAgent sampleHost sampleDeployment emptyResults).1).map
        (fun kv => kv.2.Output) = [[1, 3]] ∧
    fullOutput (sampleHost.copyFromBinaryCache sampleHost.listenAddr sampleDeployment.Closure)
      (sampleHost.switchToConfiguration sampleDeployment sampleAgent.DryRun) = [1, 2, 3, 4] ∧
    (outcomes (onDeployment sampleAgent sampleHost sampleDeployment emptyResults).1).map
        (fun kv => kv.2.Output)
      ≠ [fullOutput (sampleHost.copyFromBinaryCache sampleHost.listenAddr sampleDeployment.Closure)
          (sampleHost.switchToConfiguration sampleDeployment sampleAgent.DryRun)] := by
  refine ⟨by decide, by decide, by decide⟩

/-- C7 (amended): for every deployment attempt (closures differ, proxy created and
initialised) the output stored in the one outcome written is the fetch's standard
output, followed by the fetch's standard error if the fetch failed, and otherwise by the
apply's standard output and, if the apply failed, the apply's standard error. -/
theorem onDeployment_output (a : Agent) (h : Host) (config : Deployment)
    (results : String → Option DeploymentResult)
    (hdiff : h.currentSystemClosure.1 ≠ config.Closure)
    (hnew : h.newCacheErr = false) (hinit : h.initErr = false) :
    (outcomes (onDeployment a h config results).1).map (fun kv => kv.2.Output)
      = [(h.copyFromBinaryCache h.listenAddr config.Closure).stdOut ++
          (if (h.copyFromBinaryCache h.listenAddr config.Closure).err
            then (h.copyFromBinaryCache h.listenAddr config.Closure).stdErr
            else (h.switchToConfiguration config a.DryRun).stdOut ++
              (if (h.switchToConfiguration config a.DryRun).err
                then (h.switchToConfiguration config a.DryRun).stdErr else []))] := by
  rw [outcomes_of_attempt a h config results hdiff hnew hinit]
  unfold capturedOutput
  cases (h.copyFromBinaryCache h.listenAddr config.Closure).err <;>
    cases (h.switchToConfiguration config a.DryRun).err <;> simp

/-- Witness for C7 (amended) on the sample node, where both steps succeed. -/
theorem onDeployment_output_witness :
    (outcomes (onDeployment sampleAgent sampleHost sampleDeployment emptyResults).1).map
        (fun kv => kv.2.Output)
      = [(sampleHost.copyFromBinaryCache sampleHost.listenAddr sampleDeployment.Closure).stdOut ++
          (if (sampleHost.copyFromBinaryCache sampleHost.listenAddr sampleDeployment.Closure).err
            then (sampleHost.copyFromBinaryCache sampleHost.listenAddr sampleDeployment.Closure).stdErr
            else (sampleHost.switchToConfiguration sampleDeployment sampleAgent.DryRun).stdOut ++
              (if (sampleHost.switchToConfiguration sampleDeployment sampleAgent.DryRun).err
                then (sampleHost.switchToConfiguration sampleDeployment sampleAgent.DryRun).stdErr
                else []))] :=
  onDeployment_output sampleAgent sampleHost sampleDeployment emptyResults
    (by decide) rfl rfl

/-- C8: in every deployment attempt (closures differ, proxy created and initialised)
whose fetch returns an error, the calls made are the proxy start, the one fetch and the
one report — the apply collaborator is not invoked — and the outcome written under the
node's key has `Success = false` and as output the fetch's standard output followed by
the fetch's standard error. -/
theorem onDeployment_fetch_failure (a : Agent) (h : Host) (config : Deployment)
    (results : String → Option DeploymentResult)
    (hdiff : h.currentSystemClosure.1 ≠ config.Closure)
    (hnew : h.newCacheErr = false) (hinit : h.initErr = false)
    (hfetch : (h.copyFromBinaryCache h.listenAddr config.Closure).err = true) :
    (onDeployment a h config results).1
      = [.newCache, .cacheInit, .cacheRun,
         .copyFromBinaryCache h.listenAddr config.Closure,
         .resultPut a.nkey
           { Deployment := config, Success := false,
             Output := (h.copyFromBinaryCache h.listenAddr config.Closure).stdOut ++
                       (h.copyFromBinaryCache h.listenAddr config.Closure).stdErr }] ∧
    (∀ cfg dry, Event.switchToConfiguration cfg dry ∉ (onDeployment a h config results).1) := by
  have hev := onDeployment_attempt a h config results hdiff hnew hinit
  rw [copyThenSwitch_eq] at hev
  simp only [hfetch, if_true, Bool.true_or, Bool.not_true, capturedOutput] at hev
  rw [hev]
  refine ⟨rfl, ?_⟩
  intro cfg dry hmem
  simp at hmem

/-- Witness for C8 on the sample node with a failing fetch. -/
theorem onDeployment_fetch_failure_witness :
    (onDeployment sampleAgent fetchFailingHost sampleDeployment emptyResults).1
      = [.newCache, .cacheInit, .cacheRun,
         .copyFromBinaryCache "localhost:0" "xyz",
         .resultPut "N" { Deployment := sampleDeployment, Success := false, Output := [1, 2] }] ∧
    (∀ cfg dry, Event.switchToConfiguration cfg dry ∉
      (onDeployment sampleAgent fetchFailingHost sampleDeployment emptyResults).1) :=
  onDeployment_fetch_failure sampleAgent fetchFailingHost sampleDeployment emptyResults
    (by decide) rfl rfl rfl

/-! ### Blob streaming -/

/-- The loop of line 110 never ends once the first copy wrote a full chunk. -/
theorem copyLoop_full_chunk (n fuel : Nat) : copyLoop n n fuel = false := by
  induction fuel with
  | zero => rfl
  | succ k ih => simp [copyLoop, ih]

/-- The loop of line 110 is left at its first test after a short chunk. -/
theorem copyLoop_short_chunk (written chunkSize fuel : Nat) (h : written ≠ chunkSize) :
    copyLoop written chunkSize (fuel + 1) = true := by
  simp [copyLoop, h]

/-- A GET of a stored blob at least one chunk long never returns, whatever the fuel. -/
theorem getNar_full_chunk_never_returns (f : Faults) (s : Stores) (hash compression : String)
    (obj : NarObject) (hobj : s.nar (narName hash compression) = some obj)
    (hget : f.narGet = false) (hinfo : f.narObjInfo = false) (hread : f.narReadAt = Option.none)
    (hsize : obj.chunkSize ≤ obj.data.length) (fuel : Nat) :
    getNar true fuel f s hash compression = Option.none := by
  simp [getNar, storeGet, hobj, hget, hinfo, hread, CopyN, List.length_take,
    Nat.min_eq_left hsize, copyLoop_full_chunk]

/-- A GET of a stored blob shorter than one chunk returns the whole blob. -/
theorem getNar_short_blob (f : Faults) (s : Stores) (hash compression : String)
    (obj : NarObject) (hobj : s.nar (narName hash compression) = some obj)
    (hget : f.narGet = false) (hinfo : f.narObjInfo = false) (hread : f.narReadAt = Option.none)
    (hsize : obj.data.length < obj.chunkSize) (fuel : Nat) :
    ∃ r, getNar true (fuel + 1) f s hash compression = some r ∧ r.resp.body = obj.data ∧
      r.resp.statusCode = 200 ∧ r.writes = [] := by
  have hne : obj.data.length ≠ obj.chunkSize := by omega
  have htake : List.take obj.chunkSize obj.data = obj.data := List.take_of_length_le (by omega)
  have hloop : copyLoop obj.data.length obj.chunkSize (fuel + 1) = true :=
    copyLoop_short_chunk _ _ _ hne
  by_cases hnil : obj.data = []
  · have hloop0 : copyLoop 0 obj.chunkSize (fuel + 1) = true := by
      simpa [hnil] using hloop
    simp [getNar, storeGet, hobj, hget, hinfo, hread, CopyN, hloop0,
      htake, hnil, ResponseWriter.statusCode, ResponseWriter.Set]
  · simp [getNar, storeGet, hobj, hget, hinfo, hread, CopyN, hloop,
      htake, hnil, ResponseWriter.statusCode, ResponseWriter.Set, ResponseWriter.Write]

/-- C3 (failing input): the blob store holds, under `deadbeef-xz`, a blob of exactly one
chunk (131072 bytes, the store's default chunk size); `GET /nar/deadbeef.nar.xz` does
not return within any number of tests of the loop condition of line 110. -/
theorem getNar_full_chunk_diverges :
    fullChunkStores.nar (narName "deadbeef" "xz")
      = some { data := List.replicate objDefaultChunkSize 0, chunkSize := objDefaultChunkSize } ∧
    ∀ fuel, getNar true fuel Faults.none fullChunkStores "deadbeef" "xz" = Option.none := by
  have hobj : fullChunkStores.nar (narName "deadbeef" "xz")
      = some { data := List.replicate objDefaultChunkSize 0, chunkSize := objDefaultChunkSize } := by
    have hname : narName "deadbeef" "xz" = "deadbeef-xz" := by decide
    simp [fullChunkStores, hname]
  refine ⟨hobj, fun fuel => ?_⟩
  exact getNar_full_chunk_never_returns Faults.none fullChunkStores "deadbeef" "xz" _ hobj
    rfl rfl rfl (by simp) fuel

/-! ### Router -/

/-- No HEAD registration exists for the narinfo pattern: every path matching it is
answered 405 under HEAD and handed to `getNarInfo` under GET. -/
theorem dispatch_narInfo (path : String) (h : matchRoute path = some .NarInfo) :
    dispatch .HEAD path = .methodNotAllowed ∧ dispatch .GET path = .handler .getNarInfo := by
  simp [dispatch, h, createRouter]

/-- Both HEAD and GET are registered for the nar pattern. -/
theorem dispatch_nar (path : String) (h : matchRoute path = some .Nar) :
    dispatch .HEAD path = .handler (.getNar false) ∧
    dispatch .GET path = .handler (.getNar true) := by
  simp [dispatch, h, createRouter]

/-- C9 (failing input): `/deadbeef.narinfo` matches the narinfo pattern with
`hash = deadbeef`; GET is dispatched to `getNarInfo`, HEAD is answered 405 and reaches
no handler, while HEAD and GET of `/nar/deadbeef.nar.xz` both reach `getNar`. -/
theorem head_narinfo_not_routed :
    matchNarInfo "/deadbeef.narinfo" = some "deadbeef" ∧
    dispatch .GET "/deadbeef.narinfo" = .handler .getNarInfo ∧
    dispatch .HEAD "/deadbeef.narinfo" = .methodNotAllowed ∧
    dispatch .HEAD "/nar/deadbeef.nar.xz" = .handler (.getNar false) ∧
    dispatch .GET "/nar/deadbeef.nar.xz" = .handler (.getNar true) := by
  refine ⟨by decide, by decide, by decide, by decide, by decide⟩

/-! ### Narinfo lookup -/

/-- A stored value that does not parse makes the handler panic after the access marker
was written; the 500 the client sees is `Recoverer`'s. -/
theorem getNarInfo_parse_failure (c : Cache) (f : Faults) (s : Stores) (hash : String)
    (raw : Bytes) (hstored : s.narInfo hash = some raw) (hparse : c.lib.Parse raw = Option.none)
    (hget : f.narInfoGet = false) (haccess : f.narInfoAccessPut = false) :
    (getNarInfo c f s hash).exit = .panicked ∧
    (getNarInfo c f s hash).resp.status = Option.none ∧
    (getNarInfo c f s hash).writes = [.narInfoAccessPut hash] ∧
    (serveGetNarInfo c f s hash).resp.statusCode = 500 := by
  simp [serveGetNarInfo, Recoverer, getNarInfo, storeGet, storePut, hstored, hparse, hget,
    haccess, ResponseWriter.WriteHeader, ResponseWriter.statusCode]

/-- C10 (failing input): the narinfo store holds the two bytes `B1` under `deadbeef`,
which do not parse; `getNarInfo` does not return an error response: it writes the access
marker, sends no status and panics on the nil record, and the status 500 is produced by
the `Recoverer` middleware. -/
theorem getNarInfo_malformed_panics :
    malformedStores.narInfo "deadbeef" = some [66, 49] ∧
    sampleCache.lib.Parse [66, 49] = Option.none ∧
    (getNarInfo sampleCache Faults.none malformedStores "deadbeef").exit = .panicked ∧
    (getNarInfo sampleCache Faults.none malformedStores "deadbeef").resp.status = Option.none ∧
    (getNarInfo sampleCache Faults.none malformedStores "deadbeef").writes
      = [.narInfoAccessPut "deadbeef"] ∧
    (serveGetNarInfo sampleCache Faults.none malformedStores "deadbeef").resp.statusCode = 500 := by
  have hs : malformedStores.narInfo "deadbeef" = some [66, 49] := by decide
  have hp : sampleCache.lib.Parse [66, 49] = Option.none := by decide
  exact ⟨hs, hp, getNarInfo_parse_failure sampleCache Faults.none malformedStores "deadbeef"
    [66, 49] hs hp rfl rfl⟩

/-- The signing test of lines 162-169 on a record without a signature under `name`. -/
theorem any_signed_of_unsigned (name : String) (sigs : List Signature)
    (h : ∀ sig ∈ sigs, sig.Name ≠ name) :
    sigs.any (fun sig => sig.Name == name) = false := by
  rw [List.any_eq_false]
  intro sig hsig
  simpa using h sig hsig

/-- The signatures under `name` after appending one to a record that had none. -/
theorem signaturesBy_appendSignature (name : String) (info : NarInfo) (d : Bytes)
    (h : ∀ sig ∈ info.Signatures, sig.Name ≠ name) :
    signaturesBy name (appendSignature info ⟨name, d⟩) = [⟨name, d⟩] := by
  have hnone : info.Signatures.filter (fun sig => sig.Name == name) = [] := by
    rw [List.filter_eq_nil_iff]
    intro sig hsig
    simpa using h sig hsig
  simp [signaturesBy, appendSignature, List.filter_append, hnone]

/-- The first GET of an unsigned record when no backend call fails: the access marker
and the signed record are written, and the signed text is the response body. -/
theorem getNarInfo_first_read (c : Cache) (f : Faults) (s : Stores) (hash : String)
    (raw : Bytes) (info : NarInfo) (d : Bytes)
    (hstored : s.narInfo hash = some raw)
    (hparse : c.lib.Parse raw = some info)
    (hunsigned : ∀ sig ∈ info.Signatures, sig.Name ≠ c.Options.Name)
    (hget : f.narInfoGet = false) (haccess : f.narInfoAccessPut = false)
    (hput : f.narInfoPut = false)
    (hsign : c.Options.SecretKey.signData (c.lib.Fingerprint info) = some d) :
    (getNarInfo c f s hash).writes
      = [.narInfoAccessPut hash,
         .narInfoPut hash (c.lib.String (appendSignature info ⟨c.Options.SecretKey.name, d⟩))] ∧
    (getNarInfo c f s hash).stores.narInfo
      = (fun k => if k = hash
          then some (c.lib.String (appendSignature info ⟨c.Options.SecretKey.name, d⟩))
          else s.narInfo k) ∧
    (getNarInfo c f s hash).resp.body
      = c.lib.String (appendSignature info ⟨c.Options.SecretKey.name, d⟩) ∧
    (getNarInfo c f s hash).resp.status = some 200 := by
  have hany := any_signed_of_unsigned _ _ hunsigned
  simp [getNarInfo, storeGet, storePut, hstored, hparse, hget, haccess, hput, hany,
    SecretKey.Sign, hsign, appendSignature, ResponseWriter.Write, ResponseWriter.Set]

/-- A GET of a record already signed under the cache's name, whatever backend calls
fail: the narinfo store is not written and keeps its contents. -/
theorem getNarInfo_signed_read (c : Cache) (f : Faults) (s : Stores) (hash : String)
    (raw : Bytes) (info : NarInfo)
    (hstored : s.narInfo hash = some raw)
    (hparse : c.lib.Parse raw = some info)
    (hsigned : info.Signatures.any (fun sig => sig.Name == c.Options.Name) = true) :
    (getNarInfo c f s hash).stores.narInfo = s.narInfo ∧
    (getNarInfo c f s hash).writes.filter StoreWrite.isNarInfoPut = [] := by
  cases hget : f.narInfoGet <;> cases haccess : f.narInfoAccessPut <;>
    simp [getNarInfo, storeGet, storePut, hstored, hparse, hget, haccess, hsigned,
      StoreWrite.isNarInfoPut]

/-- Any number of GETs of a record already signed under the cache's name, whatever
backend calls fail: the narinfo store is never written and keeps its contents. -/
theorem getNarInfoSeq_signed (c : Cache) (hash : String) (raw : Bytes) (info : NarInfo)
    (hparse : c.lib.Parse raw = some info)
    (hsigned : info.Signatures.any (fun sig => sig.Name == c.Options.Name) = true)
    (fs : List Faults) (s : Stores) (hstored : s.narInfo hash = some raw) :
    (getNarInfoSeq c hash fs s).1.narInfo = s.narInfo ∧
    (getNarInfoSeq c hash fs s).2.filter StoreWrite.isNarInfoPut = [] := by
  induction fs generalizing s with
  | nil => exact ⟨rfl, rfl⟩
  | cons f fs ih =>
    obtain ⟨hst, hwr⟩ := getNarInfo_signed_read c f s hash raw info hstored hparse hsigned
    have hstored2 : (getNarInfo c f s hash).stores.narInfo hash = some raw := by
      rw [hst]; exact hstored
    obtain ⟨ih1, ih2⟩ := ih (getNarInfo c f s hash).stores hstored2
    refine ⟨?_, ?_⟩
    · show (getNarInfoSeq c hash fs (getNarInfo c f s hash).stores).1.narInfo = s.narInfo
      rw [ih1, hst]
    · show ((getNarInfo c f s hash).writes ++
          (getNarInfoSeq c hash fs (getNarInfo c f s hash).stores).2).filter
            StoreWrite.isNarInfoPut = []
      rw [List.filter_append, hwr, ih2]
      rfl

/-- C1: take a hash whose stored narinfo parses to a record without a signature under
the cache's name, a cache whose key signs under the cache's name, and a first GET in
which the lookup, the access-marker write, the signing and the narinfo write all succeed.
That GET issues one narinfo write, replacing the stored value by the text of the same
record with one signature appended, and the new record holds exactly one signature under
the cache's name.  If that text parses back to that record, then any number of later
GETs of the hash, whatever backend calls fail in them, issue no narinfo write and leave
the narinfo store unchanged. -/
theorem getNarInfo_signs_once (c : Cache) (f : Faults) (s : Stores) (hash : String)
    (raw : Bytes) (info : NarInfo) (d : Bytes)
    (hname : c.Options.SecretKey.name = c.Options.Name)
    (hstored : s.narInfo hash = some raw)
    (hparse : c.lib.Parse raw = some info)
    (hunsigned : ∀ sig ∈ info.Signatures, sig.Name ≠ c.Options.Name)
    (hget : f.narInfoGet = false) (haccess : f.narInfoAccessPut = false)
    (hput : f.narInfoPut = false)
    (hsign : c.Options.SecretKey.signData (c.lib.Fingerprint info) = some d)
    (hround : c.lib.Parse (c.lib.String (appendSignature info ⟨c.Options.Name, d⟩))
      = some (appendSignature info ⟨c.Options.Name, d⟩)) :
    (getNarInfo c f s hash).writes.filter StoreWrite.isNarInfoPut
      = [.narInfoPut hash (c.lib.String (appendSignature info ⟨c.Options.Name, d⟩))] ∧
    (getNarInfo c f s hash).stores.narInfo
      = (fun k => if k = hash
          then some (c.lib.String (appendSignature info ⟨c.Options.Name, d⟩))
          else s.narInfo k) ∧
    signaturesBy c.Options.Name (appendSignature info ⟨c.Options.Name, d⟩)
      = [⟨c.Options.Name, d⟩] ∧
    ∀ later : List Faults,
      (getNarInfoSeq c hash later (getNarInfo c f s hash).stores).1.narInfo
        = (getNarInfo c f s hash).stores.narInfo ∧
      (getNarInfoSeq c hash later (getNarInfo c f s hash).stores).2.filter
        StoreWrite.isNarInfoPut = [] := by
  obtain ⟨hw, hst, -, -⟩ :=
    getNarInfo_first_read c f s hash raw info d hstored hparse hunsigned hget haccess hput hsign
  rw [hname] at hw hst
  refine ⟨?_, hst, signaturesBy_appendSignature _ _ _ hunsigned, ?_⟩
  · rw [hw]; rfl
  · intro later
    apply getNarInfoSeq_signed c hash _ _ hround
    · simp [appendSignature]
    · rw [hst]; simp

/-- Witness for C1: the sample cache `cache-1` and the sample stores, whose narinfo
under `deadbeef` carries one signature of `upstream-1`. -/
theorem getNarInfo_signs_once_witness :
    (getNarInfo sampleCache Faults.none sampleStores "deadbeef").writes.filter
        StoreWrite.isNarInfoPut
      = [.narInfoPut "deadbeef" [78, 2, 5, 1, 7]] ∧
    (getNarInfo sampleCache Faults.none sampleStores "deadbeef").stores.narInfo "deadbeef"
      = some [78, 2, 5, 1, 7] ∧
    sampleLib.Parse [78, 2, 5, 1, 7]
      = some { sampleRecord with Signatures := [⟨"upstream-1", [5]⟩, ⟨"cache-1", [7]⟩] } ∧
    (getNarInfoSeq sampleCache "deadbeef" [Faults.none, Faults.none]
        (getNarInfo sampleCache Faults.none sampleStores "deadbeef").stores).1.narInfo "deadbeef"
      = some [78, 2, 5, 1, 7] ∧
    (getNarInfoSeq sampleCache "deadbeef" [Faults.none, Faults.none]
        (getNarInfo sampleCache Faults.none sampleStores "deadbeef").stores).2.filter
          StoreWrite.isNarInfoPut = [] := by
  have h := getNarInfo_signs_once sampleCache Faults.none sampleStores "deadbeef" [78, 2, 5]
    { sampleRecord with Signatures := [⟨"upstream-1", [5]⟩] } [7]
    rfl (by decide) (by decide) (by decide) rfl rfl rfl rfl (by decide)
  obtain ⟨h1, h2, -, h4⟩ := h
  have hs : sampleCache.lib.String
      (appendSignature { sampleRecord with Signatures := [⟨"upstream-1", [5]⟩] }
        ⟨sampleCache.Options.Name, [7]⟩) = [78, 2, 5, 1, 7] := by decide
  rw [hs] at h1 h2
  refine ⟨h1, ?_, by decide, ?_, (h4 _).2⟩
  · rw [h2]; simp
  · rw [(h4 _).1, h2]; simp

/-- The two headers `getNarInfo` sets on an empty header map. -/
theorem narInfo_headers (len : String) :
    HeaderGet (HeaderSet (HeaderSet [] ContentType ContentTypeNarInfo) ContentLength len)
        ContentType = ContentTypeNarInfo ∧
    HeaderGet (HeaderSet (HeaderSet [] ContentType ContentTypeNarInfo) ContentLength len)
        ContentLength = len := by
  have hne : (ContentType != ContentLength) = true := by decide
  have hne2 : (ContentType == ContentLength) = false := by decide
  simp [HeaderGet, HeaderSet, List.filter, List.find?, hne, hne2]

/-- C6: whenever a GET of `/{hash}.narinfo`, served through the router's middleware by a
cache whose key signs under the cache's name, ends with status 200, the stored value
parsed to a record `info`, and the body is the text `String` of the record served: either
`info` itself, already signed under the cache's name, or `info` with one signature under
the cache's name appended, in which case that same text was put to the narinfo store
under the hash and is what the store now holds.  The record served carries a signature
under the cache's name, `Content-Type` is `text/x-nix-narinfo` and `Content-Length` is the
decimal length of the body. -/
theorem getNarInfo_success_response (c : Cache) (f : Faults) (s : Stores) (hash : String)
    (hname : c.Options.SecretKey.name = c.Options.Name)
    (hok : (serveGetNarInfo c f s hash).resp.statusCode = 200) :
    ∃ raw info served,
      s.narInfo hash = some raw ∧ c.lib.Parse raw = some info ∧
      (served = info ∨
        ∃ d, served = appendSignature info ⟨c.Options.Name, d⟩ ∧
          StoreWrite.narInfoPut hash (serveGetNarInfo c f s hash).resp.body
            ∈ (serveGetNarInfo c f s hash).writes ∧
          (serveGetNarInfo c f s hash).stores.narInfo hash
            = some (serveGetNarInfo c f s hash).resp.body) ∧
      (∃ sig ∈ served.Signatures, sig.Name = c.Options.Name) ∧
      (serveGetNarInfo c f s hash).resp.body = c.lib.String served ∧
      HeaderGet (serveGetNarInfo c f s hash).resp.header ContentType = ContentTypeNarInfo ∧
      HeaderGet (serveGetNarInfo c f s hash).resp.header ContentLength
        = toString (serveGetNarInfo c f s hash).resp.body.length := by
  cases hget : f.narInfoGet with
  | true =>
    simp [serveGetNarInfo, Recoverer, getNarInfo, storeGet, hget, ResponseWriter.WriteHeader,
      ResponseWriter.statusCode] at hok
  | false =>
  cases hstored : s.narInfo hash with
  | none =>
    simp [serveGetNarInfo, Recoverer, getNarInfo, storeGet, hget, hstored,
      ResponseWriter.WriteHeader, ResponseWriter.statusCode] at hok
  | some raw =>
  cases haccess : f.narInfoAccessPut with
  | true =>
    simp [serveGetNarInfo, Recoverer, getNarInfo, storeGet, storePut, hget, hstored, haccess,
      ResponseWriter.WriteHeader, ResponseWriter.statusCode] at hok
  | false =>
  cases hparse : c.lib.Parse raw with
  | none =>
    simp [serveGetNarInfo, Recoverer, getNarInfo, storeGet, storePut, hget, hstored, haccess,
      hparse, ResponseWriter.WriteHeader, ResponseWriter.statusCode] at hok
  | some info =>
  cases hany : info.Signatures.any (fun sig => sig.Name == c.Options.Name) with
  | true =>
    refine ⟨raw, info, info, rfl, hparse, Or.inl rfl, ?_, ?_⟩
    · rw [List.any_eq_true] at hany
      obtain ⟨sig, hsig, heq⟩ := hany
      exact ⟨sig, hsig, by simpa using heq⟩
    · have hh := narInfo_headers (toString (c.lib.String info).length)
      simp [serveGetNarInfo, Recoverer, getNarInfo, storeGet, storePut, hget, hstored, haccess,
        hparse, hany, ResponseWriter.Write, ResponseWriter.Set, hh.1, hh.2]
  | false =>
  cases hsign : c.Options.SecretKey.signData (c.lib.Fingerprint info) with
  | none =>
    simp [serveGetNarInfo, Recoverer, getNarInfo, storeGet, storePut, hget, hstored, haccess,
      hparse, hany, SecretKey.Sign, hsign, ResponseWriter.WriteHeader,
      ResponseWriter.statusCode] at hok
  | some d =>
  cases hput : f.narInfoPut with
  | true =>
    simp [serveGetNarInfo, Recoverer, getNarInfo, storeGet, storePut, hget, hstored, haccess,
      hparse, hany, SecretKey.Sign, hsign, hput, ResponseWriter.WriteHeader,
      ResponseWriter.statusCode] at hok
  | false =>
    have hh := narInfo_headers
      (toString (c.lib.String (appendSignature info ⟨c.Options.Name, d⟩)).length)
    refine ⟨raw, info, appendSignature info ⟨c.Options.Name, d⟩, rfl, hparse, Or.inr ⟨d, rfl, ?_, ?_⟩,
      ⟨⟨c.Options.Name, d⟩, by simp [appendSignature], rfl⟩, ?_⟩
    · simp [serveGetNarInfo, Recoverer, getNarInfo, storeGet, storePut, hget, hstored, haccess,
        hparse, hany, SecretKey.Sign, hsign, hput, hname, appendSignature,
        ResponseWriter.Write, ResponseWriter.Set]
    · simp [serveGetNarInfo, Recoverer, getNarInfo, storeGet, storePut, hget, hstored, haccess,
        hparse, hany, SecretKey.Sign, hsign, hput, hname, appendSignature,
        ResponseWriter.Write, ResponseWriter.Set]
    · have hh2 := hh
      simp only [appendSignature] at hh2
      simp [serveGetNarInfo, Recoverer, getNarInfo, storeGet, storePut, hget, hstored, haccess,
        hparse, hany, SecretKey.Sign, hsign, hput, hname, appendSignature,
        ResponseWriter.Write, ResponseWriter.Set, hh2.1, hh2.2]

/-- Witness for C6: the first GET of `deadbeef` on the sample cache ends with status 200. -/
theorem getNarInfo_success_response_witness :
    (serveGetNarInfo sampleCache Faults.none sampleStores "deadbeef").resp.statusCode = 200 ∧
    (serveGetNarInfo sampleCache Faults.none sampleStores "deadbeef").resp.body
      = [78, 2, 5, 1, 7] ∧
    ∃ raw info served,
      sampleStores.narInfo "deadbeef" = some raw ∧ sampleCache.lib.Parse raw = some info ∧
      (served = info ∨
        ∃ d, served = appendSignature info ⟨sampleCache.Options.Name, d⟩ ∧
          StoreWrite.narInfoPut "deadbeef"
              (serveGetNarInfo sampleCache Faults.none sampleStores "deadbeef").resp.body
            ∈ (serveGetNarInfo sampleCache Faults.none sampleStores "deadbeef").writes ∧
          (serveGetNarInfo sampleCache Faults.none sampleStores "deadbeef").stores.narInfo
              "deadbeef"
            = some (serveGetNarInfo sampleCache Faults.none sampleStores "deadbeef").resp.body) ∧
      (∃ sig ∈ served.Signatures, sig.Name = sampleCache.Options.Name) ∧
      (serveGetNarInfo sampleCache Faults.none sampleStores "deadbeef").resp.body
        = sampleCache.lib.String served ∧
      HeaderGet (serveGetNarInfo sampleCache Faults.none sampleStores "deadbeef").resp.header
          ContentType = ContentTypeNarInfo ∧
      HeaderGet (serveGetNarInfo sampleCache Faults.none sampleStores "deadbeef").resp.header
          ContentLength
        = toString
            (serveGetNarInfo sampleCache Faults.none sampleStores "deadbeef").resp.body.length :=
  ⟨by decide, by decide,
   getNarInfo_success_response sampleCache Faults.none sampleStores "deadbeef" rfl (by decide)⟩

/-! ### Blob-store key -/

/-- Two lists that agree after a separator occurring in neither front part have the same
front part and the same rest. -/
theorem split_at_separator (sep : Char) (l₁ l₂ r₁ r₂ : List Char)
    (h₁ : sep ∉ l₁) (h₂ : sep ∉ l₂) (h : l₁ ++ sep :: r₁ = l₂ ++ sep :: r₂) :
    l₁ = l₂ ∧ r₁ = r₂ := by
  induction l₁ generalizing l₂ with
  | nil =>
    cases l₂ with
    | nil => simpa using h
    | cons b t =>
      simp only [List.nil_append, List.cons_append, List.cons.injEq] at h
      exact absurd (h.1 ▸ List.mem_cons_self b t) h₂
  | cons a t ih =>
    cases l₂ with
    | nil =>
      simp only [List.nil_append, List.cons_append, List.cons.injEq] at h
      exact absurd (h.1 ▸ List.mem_cons_self a t) h₁
    | cons b t₂ =>
      simp only [List.cons_append, List.cons.injEq] at h
      obtain ⟨hab, htl⟩ := h
      have := ih t₂ (fun hm => h₁ (List.mem_cons_of_mem _ hm))
        (fun hm => h₂ (List.mem_cons_of_mem _ hm)) htl
      exact ⟨by rw [hab, this.1], this.2⟩

/-- The separator `-` of the blob-store key does not occur in a routable hash. -/
theorem dash_not_in_hash (hash : String) (h : isHash hash = true) : '-' ∉ hash.toList := by
  intro hmem
  simp only [isHash, Bool.and_eq_true, List.all_eq_true] at h
  have := h.2 '-' hmem
  exact absurd this (by decide)

/-- The characters of a blob-store key. -/
theorem narName_toList (hash compression : String) :
    (narName hash compression).toList = hash.toList ++ '-' :: compression.toList := by
  simp [narName, String.toList]

/-- C11: for hashes `h₁`, `h₂` matching `[a-z0-9]+` and any compression strings, equal
blob-store keys `hash + "-" + compression` come from equal hashes and equal
compressions.  `putNar` writes under that key and `getNar` looks up that key: a blob put
for `(h₁, c₁)` without a store error is what a HEAD of `(h₁, c₁)` then reports (status
200, `Content-Length` the blob's length), while the entry read for a different pair
`(h₂, c₂)` is left as it was. -/
theorem narName_injective (h₁ h₂ c₁ c₂ : String)
    (hh₁ : isHash h₁ = true) (hh₂ : isHash h₂ = true) :
    (narName h₁ c₁ = narName h₂ c₂ → h₁ = h₂ ∧ c₁ = c₂) ∧
    (∀ (chunk fuel : Nat) (f g : Faults) (s : Stores) (blob : Bytes),
      f.narPut = false → g.narGet = false → g.narObjInfo = false →
      (putNar chunk f s h₁ c₁ blob).writes = [.narPut (narName h₁ c₁) blob] ∧
      (∃ r, getNar false fuel g (putNar chunk f s h₁ c₁ blob).stores h₁ c₁ = some r ∧
        r.resp.statusCode = 200 ∧
        HeaderGet r.resp.header ContentLength = toString blob.length) ∧
      ((h₁, c₁) ≠ (h₂, c₂) →
        (putNar chunk f s h₁ c₁ blob).stores.nar (narName h₂ c₂) = s.nar (narName h₂ c₂))) := by
  have hinj : narName h₁ c₁ = narName h₂ c₂ → h₁ = h₂ ∧ c₁ = c₂ := by
    intro heq
    have hl := congrArg String.toList heq
    rw [narName_toList, narName_toList] at hl
    obtain ⟨ha, hb⟩ := split_at_separator '-' _ _ _ _
      (dash_not_in_hash h₁ hh₁) (dash_not_in_hash h₂ hh₂) hl
    exact ⟨String.ext ha, String.ext hb⟩
  refine ⟨hinj, ?_⟩
  intro chunk fuel f g s blob hput hget hinfo
  have hne : (ContentType != ContentLength) = true := by decide
  have hne2 : (ContentType == ContentLength) = false := by decide
  refine ⟨?_, ?_, ?_⟩
  · simp [putNar, storePut, hput]
  · simp [putNar, storePut, hput, getNar, storeGet, hget, hinfo, ResponseWriter.Set,
      ResponseWriter.statusCode, HeaderGet, HeaderSet, List.filter, List.find?, hne, hne2]
  · intro hpair
    have hkey : narName h₂ c₂ ≠ narName h₁ c₁ := by
      intro heq
      obtain ⟨ha, hb⟩ := hinj heq.symm
      exact hpair (by rw [ha, hb])
    simp [putNar, storePut, hput, hkey]

/-- Witness for C11: the hashes `deadbeef` and `cafe` with compression `xz`. -/
theorem narName_injective_witness :
    narName "deadbeef" "xz" = narName "deadbeef" "xz" ∧
    ("deadbeef" = "deadbeef" ∧ "xz" = "xz") ∧
    (putNar 4 Faults.none sampleStores "deadbeef" "xz" [1, 2, 3]).writes
      = [.narPut "deadbeef-xz" [1, 2, 3]] ∧
    (∃ r, getNar false 0 Faults.none
        (putNar 4 Faults.none sampleStores "deadbeef" "xz" [1, 2, 3]).stores "deadbeef" "xz"
          = some r ∧
      r.resp.statusCode = 200 ∧ HeaderGet r.resp.header ContentLength = "3") ∧
    (putNar 4 Faults.none sampleStores "deadbeef" "xz" [1, 2, 3]).stores.nar (narName "cafe" "xz")
      = sampleStores.nar (narName "cafe" "xz") := by
  have h := narName_injective "deadbeef" "cafe" "xz" "xz" (by decide) (by decide)
  obtain ⟨hw, hr, hother⟩ := h.2 4 0 Faults.none Faults.none sampleStores [1, 2, 3] rfl rfl rfl
  refine ⟨rfl, (narName_injective "deadbeef" "deadbeef" "xz" "xz" (by decide) (by decide)).1 rfl,
    ?_, ?_, hother (by decide)⟩
  · simpa [show narName "deadbeef" "xz" = "deadbeef-xz" by decide] using hw
  · obtain ⟨r, hr1, hr2, hr3⟩ := hr
    exact ⟨r, hr1, hr2, by simpa using hr3⟩

/-! ### Reads of a missing hash through the router -/

/-- C4 (failing input): the sample stores hold no narinfo under `cafe`.  `GET /cafe.narinfo`
reaches `getNarInfo`, which answers 404 with an empty body and writes nothing; HEAD of the
same path matches the narinfo pattern but reaches no handler, and the router answers 405
instead of 404.  Reads of `/nar/cafe.nar.xz`, for which the blob store has no entry, reach
`getNar` under both GET and HEAD and are answered 404. -/
theorem head_missing_narinfo_not_404 :
    sampleStores.narInfo "cafe" = Option.none ∧
    matchNarInfo "/cafe.narinfo" = some "cafe" ∧
    dispatch .HEAD "/cafe.narinfo" = .methodNotAllowed ∧
    (dispatch .HEAD "/cafe.narinfo").routerStatus = some 405 ∧
    dispatch .GET "/cafe.narinfo" = .handler .getNarInfo ∧
    (serveGetNarInfo sampleCache Faults.none sampleStores "cafe").resp.statusCode = 404 ∧
    (serveGetNarInfo sampleCache Faults.none sampleStores "cafe").resp.body = [] ∧
    (serveGetNarInfo sampleCache Faults.none sampleStores "cafe").writes = [] ∧
    matchNar "/nar/cafe.nar.xz" = some ("cafe", "xz") ∧
    dispatch .HEAD "/nar/cafe.nar.xz" = .handler (.getNar false) ∧
    dispatch .GET "/nar/cafe.nar.xz" = .handler (.getNar true) ∧
    (∀ body fuel, getNar body fuel Faults.none sampleStores "cafe" "xz"
      = some ⟨sampleStores, [], { status := some 404, header := [], body := [] }, .returned⟩) := by
  refine ⟨by decide, by decide, by decide, by decide, by decide, by decide, by decide,
    by decide, by decide, by decide, by decide, ?_⟩
  intro body fuel
  have hnar : sampleStores.nar (narName "cafe" "xz") = Option.none := rfl
  simp [getNar, storeGet, hnar, Faults.none, ResponseWriter.WriteHeader]

end Nits
